import Mathlib

/-!
Verification of the KolonaKufiri aggregation core: the decayed-weighted
vote estimator (`computeSmartLevel`) and the 15-minute time-series builder
(`buildLineBuckets15minAll`), embedded shallowly from the TypeScript
source.  Votes are `Report` records with an integer wait level and an
epoch-millisecond timestamp.  JavaScript floating-point arithmetic is
modelled over `ℝ` where the source uses `Math.exp`, and over `ℚ` where the
source only performs field arithmetic on integer-derived values.  The
source estimator reads `Date.now()` internally; that clock reading is made
an explicit `now` argument here, as for any effectful input.
-/

namespace KolonaKufiri

/-- A vote record (source `Report` type): `waitLevel` is the congestion
level (nominally 0..3, clamped before use) and `createdAtMs` the
client-assigned epoch-millisecond timestamp. -/
structure Report where
  waitLevel : ℤ
  createdAtMs : ℤ
deriving DecidableEq

/-- Source `clamp(n, a, b) = Math.max(a, Math.min(b, n))`. -/
def clamp {α : Type*} [LinearOrder α] (n a b : α) : α :=
  max a (min b n)

/-- Recency weight of one vote in `computeSmartLevel`:
`minutes = Math.max(0, (now - createdAtMs) / 60000)` and
`weight = Math.exp(-minutes / 12)`. -/
noncomputable def weight (now createdAtMs : ℤ) : ℝ :=
  Real.exp (-(max 0 (((now - createdAtMs : ℤ) : ℝ) / 60000)) / 12)

/-- Bucket index of a vote: `clamp(r.waitLevel ?? 0, 0, 3)`, as an index
into the four weight buckets. -/
def lvlIdx (r : Report) : Fin 4 :=
  ⟨(clamp r.waitLevel 0 3).toNat, by simp only [clamp]; omega⟩

/-- The weight-bucket accumulation loop of `computeSmartLevel`:
`buckets[lvl] += weight` over all reports, starting from `[0, 0, 0, 0]`. -/
noncomputable def voteBuckets (reports : List Report) (now : ℤ) : Fin 4 → ℝ :=
  reports.foldl
    (fun buckets r =>
      Function.update buckets (lvlIdx r) (buckets (lvlIdx r) + weight now r.createdAtMs))
    (fun _ => 0)

/-- Source `wSum = buckets.reduce((a, b) => a + b, 0) || 1`. -/
noncomputable def wSumOf (b : Fin 4 → ℝ) : ℝ :=
  if 0 + b 0 + b 1 + b 2 + b 3 = 0 then 1 else 0 + b 0 + b 1 + b 2 + b 3

/-- Source `avg = (0*buckets[0] + 1*buckets[1] + 2*buckets[2] + 3*buckets[3]) / wSum`. -/
noncomputable def avgOf (b : Fin 4 → ℝ) : ℝ :=
  (0 * b 0 + 1 * b 1 + 2 * b 2 + 3 * b 3) / wSumOf b

/-- Source `idxs = [0, 1, 2, 3].sort((a, b) => buckets[b] - buckets[a])`:
a stable sort of the four level indices by bucket weight, descending.
`List.insertionSort` with the reflexive relation `b j ≤ b i` places each
element at the front of its tie class, which reproduces the stable
descending order of `Array.prototype.sort`. -/
noncomputable def sortedLevels (b : Fin 4 → ℝ) : List (Fin 4) :=
  List.insertionSort (fun i j => b j ≤ b i) [0, 1, 2, 3]

/-- Source `top1 = idxs[0]`. -/
noncomputable def top1Of (b : Fin 4 → ℝ) : Fin 4 :=
  (sortedLevels b).getD 0 0

/-- Source `top2 = idxs[1]`. -/
noncomputable def top2Of (b : Fin 4 → ℝ) : Fin 4 :=
  (sortedLevels b).getD 1 0

/-- The level decision of `computeSmartLevel` for a non-empty vote list:
the bimodal tie-break (`farApart && closeEnough`), then the
`|avg - top1| < 0.35` plurality test, else `round` of the weighted
average, clamped to `[0, 3]`. -/
noncomputable def levelOf (b : Fin 4 → ℝ) : ℤ :=
  if 2 ≤ |((top1Of b : ℕ) : ℤ) - ((top2Of b : ℕ) : ℤ)| ∧ b (top1Of b) * 0.7 ≤ b (top2Of b) then
    clamp (round ((((top1Of b : ℕ) : ℝ) + ((top2Of b : ℕ) : ℝ)) / 2)) 0 3
  else if |avgOf b - ((top1Of b : ℕ) : ℝ)| < 0.35 then ((top1Of b : ℕ) : ℤ)
  else clamp (round (avgOf b)) 0 3

/-- Confidence tier of the estimate. -/
inductive Confidence where
  | Low
  | Medium
  | High
deriving DecidableEq

/-- Source `confidence = count >= 10 ? "High" : count >= 4 ? "Medium" : "Low"`. -/
def confidenceOf (count : ℕ) : Confidence :=
  if 10 ≤ count then .High else if 4 ≤ count then .Medium else .Low

/-- The result record of `computeSmartLevel`. -/
structure SmartLevel where
  level : ℤ
  count : ℕ
  confidence : Confidence
  buckets : Fin 4 → ℝ
  avg : ℝ

/-- Source `computeSmartLevel(reports)`.  The source reads `Date.now()`
internally; that clock reading is the explicit `now` argument here. -/
noncomputable def computeSmartLevel (reports : List Report) (now : ℤ) : SmartLevel :=
  if reports.length = 0 then
    { level := 0, count := 0, confidence := .Low, buckets := fun _ => 0, avg := 0 }
  else
    { level := levelOf (voteBuckets reports now)
      count := reports.length
      confidence := confidenceOf reports.length
      buckets := voteBuckets reports now
      avg := avgOf (voteBuckets reports now) }

/-- A 15-minute time-series cell (source `Bucket` type). -/
structure Bucket where
  sum : ℚ
  count : ℕ
  avg : ℚ
deriving DecidableEq

instance : Inhabited Bucket := ⟨⟨0, 0, 0⟩⟩

/-- Source `LINE_BUCKET_MIN = 15`. -/
def LINE_BUCKET_MIN : ℕ := 15

/-- Source `LINE_BUCKET_MS = LINE_BUCKET_MIN * 60 * 1000`. -/
def LINE_BUCKET_MS : ℕ := LINE_BUCKET_MIN * 60 * 1000

/-- Source `LINE_POINTS = Math.floor((24 * 60) / LINE_BUCKET_MIN)`, i.e. 96. -/
def LINE_POINTS : ℕ := 24 * 60 / LINE_BUCKET_MIN

/-- One iteration of the accumulation loop of `buildLineBuckets15minAll`:
skip votes before the day start, compute
`idx = Math.floor((createdAtMs - startDayMs) / LINE_BUCKET_MS)`, skip it
when out of range, else add the clamped level to `sum` and 1 to `count`
of bucket `idx`.  (The source also skips records whose `createdAtMs` is
not a number; the `Report` type here makes that guard vacuous.) -/
def bucketStep (startDayMs : ℤ) (buckets : List Bucket) (r : Report) : List Bucket :=
  if r.createdAtMs < startDayMs then buckets
  else
    let idx : ℤ := Int.fdiv (r.createdAtMs - startDayMs) (LINE_BUCKET_MS : ℤ)
    if idx < 0 ∨ (LINE_POINTS : ℤ) ≤ idx then buckets
    else
      buckets.modify
        (fun b => { b with sum := b.sum + ((clamp r.waitLevel 0 3 : ℤ) : ℚ), count := b.count + 1 })
        idx.toNat

/-- The accumulation pass of `buildLineBuckets15minAll`: fold
`bucketStep` over the votes starting from 96 empty buckets. -/
def rawAccum (reports : List Report) (startDayMs : ℤ) : List Bucket :=
  reports.foldl (bucketStep startDayMs) (List.replicate LINE_POINTS { sum := 0, count := 0, avg := 0 })

/-- The raw-average pass of `buildLineBuckets15minAll`:
`buckets[i].avg = buckets[i].count ? buckets[i].sum / buckets[i].count : 0`. -/
def rawBuckets (reports : List Report) (startDayMs : ℤ) : List Bucket :=
  (rawAccum reports startDayMs).map
    (fun b => { b with avg := if b.count ≠ 0 then b.sum / (b.count : ℚ) else 0 })

/-- Source `buckets[i]?.avg ?? dflt` for a possibly negative or
out-of-range JavaScript index `i`. -/
def avgAt (buckets : List Bucket) (i : ℤ) (dflt : ℚ) : ℚ :=
  if 0 ≤ i then ((buckets[i.toNat]?).map Bucket.avg).getD dflt else dflt

/-- Source `buildLineBuckets15minAll(reports, startDayMs)`: accumulate,
compute raw averages, then one 3-point moving-average pass
`(a + b.avg + c) / 3` over the raw averages, where the missing neighbour
of an edge bucket falls back to the bucket's own raw average. -/
def buildLineBuckets15minAll (reports : List Report) (startDayMs : ℤ) : List Bucket :=
  let bs := rawBuckets reports startDayMs
  bs.mapIdx
    (fun i b =>
      { b with avg := (avgAt bs ((i : ℤ) - 1) b.avg + b.avg + avgAt bs ((i : ℤ) + 1) b.avg) / 3 })

/-- A level/status label (source `statusFromLevel` result, part_001
variant without the description field). -/
structure Status where
  title : String
  emoji : String
deriving DecidableEq

/-- Source `statusFromLevel(level)`. -/
def statusFromLevel (level : ℤ) : Status :=
  if level ≤ 0 then ⟨"E lirë", "✅"⟩
  else if level = 1 then ⟨"E vogël", "🟢"⟩
  else if level = 2 then ⟨"Mesatare", "🟡"⟩
  else ⟨"E ngarkuar", "🔴"⟩

/-- The average-to-level classifier inside `statusFromAvg`:
`a = clamp(avg, 0, 3); lvl = a < 0.5 ? 0 : a < 1.5 ? 1 : a < 2.5 ? 2 : 3`. -/
def levelFromAvg (avg : ℚ) : ℤ :=
  if clamp avg 0 3 < 0.5 then 0
  else if clamp avg 0 3 < 1.5 then 1
  else if clamp avg 0 3 < 2.5 then 2
  else 3

/-- Source `statusFromAvg(avg)`. -/
def statusFromAvg (avg : ℚ) : Status :=
  statusFromLevel (levelFromAvg avg)

/-- The level decision is always within the four congestion levels. -/
theorem levelOf_bounds (b : Fin 4 → ℝ) : 0 ≤ levelOf b ∧ levelOf b ≤ 3 := by
  have h4 := (top1Of b).isLt
  unfold levelOf
  split_ifs <;> (try simp only [clamp]) <;> omega

/-- One accumulation step never changes the number of buckets. -/
theorem length_bucketStep (startDayMs : ℤ) (bs : List Bucket) (r : Report) :
    (bucketStep startDayMs bs r).length = bs.length := by
  unfold bucketStep
  dsimp only
  split_ifs <;> first | rfl | simp

/-- Folding the accumulation step never changes the number of buckets. -/
theorem length_foldl_bucketStep (startDayMs : ℤ) (reports : List Report) (init : List Bucket) :
    (reports.foldl (bucketStep startDayMs) init).length = init.length := by
  induction reports generalizing init with
  | nil => rfl
  | cons r rest ih => rw [List.foldl_cons, ih, length_bucketStep]

/-- The accumulation pass produces `LINE_POINTS` buckets. -/
theorem length_rawAccum (reports : List Report) (startDayMs : ℤ) :
    (rawAccum reports startDayMs).length = LINE_POINTS := by
  unfold rawAccum
  rw [length_foldl_bucketStep, List.length_replicate]

/-- The raw-average pass produces `LINE_POINTS` buckets. -/
theorem length_rawBuckets (reports : List Report) (startDayMs : ℤ) :
    (rawBuckets reports startDayMs).length = LINE_POINTS := by
  unfold rawBuckets
  rw [List.length_map, length_rawAccum]

/-- The series builder always returns exactly 96 buckets. -/
theorem length_buildLineBuckets (reports : List Report) (startDayMs : ℤ) :
    (buildLineBuckets15minAll reports startDayMs).length = 96 := by
  unfold buildLineBuckets15minAll
  rw [List.length_mapIdx, length_rawBuckets]
  rfl

/-- Claim C1: for every list of votes (and any now) the estimate's level
is one of 0, 1, 2, 3, and for every list of votes and any day start the
series builder returns exactly 96 buckets. -/
theorem estimate_level_mem_and_series_length :
    (∀ (reports : List Report) (now : ℤ),
        (computeSmartLevel reports now).level ∈ ({0, 1, 2, 3} : Set ℤ)) ∧
    (∀ (reports : List Report) (startDayMs : ℤ),
        (buildLineBuckets15minAll reports startDayMs).length = 96) := by
  constructor
  · intro reports now
    by_cases h : reports.length = 0
    · simp [computeSmartLevel, h]
    · obtain ⟨h0, h3⟩ := levelOf_bounds (voteBuckets reports now)
      simp only [computeSmartLevel, h, if_false, Set.mem_insert_iff, Set.mem_singleton_iff]
      omega
  · exact length_buildLineBuckets

/-- Claim C2: the estimator on the empty vote list returns exactly the
baseline record: level 0, count 0, confidence Low, all-zero buckets and
average 0, for every now — a defined result, never an error. -/
theorem estimate_empty_baseline (now : ℤ) :
    computeSmartLevel [] now =
      { level := 0, count := 0, confidence := .Low, buckets := fun _ => 0, avg := 0 } := rfl

/-- Claim C5: the estimate's count equals the number of input votes, and
the confidence tier is High exactly when count is at least 10, Medium
exactly when it is between 4 and 9, and Low exactly when it is below 4. -/
theorem estimate_count_and_confidence (reports : List Report) (now : ℤ) :
    (computeSmartLevel reports now).count = reports.length ∧
    ((computeSmartLevel reports now).confidence = .High ↔ 10 ≤ reports.length) ∧
    ((computeSmartLevel reports now).confidence = .Medium ↔
      4 ≤ reports.length ∧ reports.length < 10) ∧
    ((computeSmartLevel reports now).confidence = .Low ↔ reports.length < 4) := by
  by_cases h : reports.length = 0
  · simp [computeSmartLevel, h]
  · simp only [computeSmartLevel, h, if_false, confidenceOf]
    split_ifs with h10 h4 <;> simp_all <;> omega

/-- Claim C9: the average-to-level classifier uses half-open thresholds:
below 0.5 gives level 0, [0.5, 1.5) gives 1, [1.5, 2.5) gives 2, and
2.5 upward gives 3. -/
theorem levelFromAvg_thresholds (avg : ℚ) :
    (avg < 0.5 → levelFromAvg avg = 0) ∧
    (0.5 ≤ avg → avg < 1.5 → levelFromAvg avg = 1) ∧
    (1.5 ≤ avg → avg < 2.5 → levelFromAvg avg = 2) ∧
    (2.5 ≤ avg → levelFromAvg avg = 3) := by
  refine ⟨fun h => ?_, fun h1 h2 => ?_, fun h1 h2 => ?_, fun h => ?_⟩ <;>
    · simp only [levelFromAvg, clamp]
      split_ifs <;> first | rfl | (exfalso; rcases le_total (3 : ℚ) avg with hc | hc <;>
        simp_all [min_eq_left, min_eq_right, max_lt_iff, lt_max_iff] <;> linarith)

/-- Boundary values of the classifier, by the threshold theorem. -/
theorem levelFromAvg_thresholds_witness :
    levelFromAvg 0.49 = 0 ∧ levelFromAvg 0.5 = 1 ∧ levelFromAvg 1.49 = 1 ∧
    levelFromAvg 1.5 = 2 ∧ levelFromAvg 2.49 = 2 ∧ levelFromAvg 2.5 = 3 :=
  ⟨(levelFromAvg_thresholds 0.49).1 (by norm_num),
   (levelFromAvg_thresholds 0.5).2.1 (by norm_num) (by norm_num),
   (levelFromAvg_thresholds 1.49).2.1 (by norm_num) (by norm_num),
   (levelFromAvg_thresholds 1.5).2.2.1 (by norm_num) (by norm_num),
   (levelFromAvg_thresholds 2.49).2.2.1 (by norm_num) (by norm_num),
   (levelFromAvg_thresholds 2.5).2.2.2 (by norm_num)⟩

/-- The millisecond width of a series bucket is 900000. -/
theorem lineBucketMs_eq : ((LINE_BUCKET_MS : ℕ) : ℤ) = 900000 := rfl

/-- The series has 96 points. -/
theorem linePoints_eq : ((LINE_POINTS : ℕ) : ℤ) = 96 := rfl

/-- Claim C7: a vote on or after the day start whose bucket index
`floor((createdAtMs - startDayMs) / 900000)` is below 96 is accumulated
into exactly that bucket (clamped level into `sum`, one into `count`),
and a vote before the day start or with bucket index at least 96 is
discarded: it appears in no bucket of the built series. -/
theorem series_bucketing_and_discard (reports : List Report) (startDayMs : ℤ) (v : Report) :
    (v.createdAtMs < startDayMs ∨ 96 ≤ (v.createdAtMs - startDayMs).fdiv 900000 →
      buildLineBuckets15minAll (reports ++ [v]) startDayMs =
        buildLineBuckets15minAll reports startDayMs) ∧
    (startDayMs ≤ v.createdAtMs → (v.createdAtMs - startDayMs).fdiv 900000 < 96 →
      rawAccum (reports ++ [v]) startDayMs =
        (rawAccum reports startDayMs).modify
          (fun b => { b with sum := b.sum + ((clamp v.waitLevel 0 3 : ℤ) : ℚ),
                             count := b.count + 1 })
          ((v.createdAtMs - startDayMs).fdiv 900000).toNat) := by
  constructor
  · intro hout
    have h : rawAccum (reports ++ [v]) startDayMs = rawAccum reports startDayMs := by
      unfold rawAccum
      rw [List.foldl_append, List.foldl_cons, List.foldl_nil]
      unfold bucketStep
      dsimp only
      rw [lineBucketMs_eq, linePoints_eq]
      by_cases h1 : v.createdAtMs < startDayMs
      · rw [if_pos h1]
      · rcases hout with h2 | h2
        · exact absurd h2 h1
        · rw [if_neg h1, if_pos (Or.inr h2)]
    unfold buildLineBuckets15minAll rawBuckets
    rw [h]
  · intro h1 h2
    unfold rawAccum
    rw [List.foldl_append, List.foldl_cons, List.foldl_nil]
    unfold bucketStep
    dsimp only
    rw [lineBucketMs_eq, linePoints_eq]
    have hidx : ¬((v.createdAtMs - startDayMs).fdiv 900000 < 0 ∨
        96 ≤ (v.createdAtMs - startDayMs).fdiv 900000) := by
      push_neg
      exact ⟨Int.fdiv_nonneg (by omega) (by norm_num), h2⟩
    rw [if_neg (not_lt.2 h1), if_neg hidx]

/-- Votes one millisecond before the day start and exactly one bucket
past the end of the day are both discarded, by the bucketing theorem. -/
theorem series_bucketing_and_discard_witness :
    buildLineBuckets15minAll [⟨2, -1⟩] 0 = buildLineBuckets15minAll [] 0 ∧
    buildLineBuckets15minAll [⟨2, 86400000⟩] 0 = buildLineBuckets15minAll [] 0 := by
  constructor
  · have h := (series_bucketing_and_discard [] 0 ⟨2, -1⟩).1 (Or.inl (by decide))
    simpa using h
  · have h := (series_bucketing_and_discard [] 0 ⟨2, 86400000⟩).1 (Or.inr (by decide))
    simpa using h

/-- Every bucket of the built series is its raw bucket with only the
average replaced by the 3-point mean over the raw averages. -/
theorem build_getElem? (reports : List Report) (startDayMs : ℤ) (i : ℕ) :
    (buildLineBuckets15minAll reports startDayMs)[i]? =
      ((rawBuckets reports startDayMs)[i]?).map
        (fun b =>
          { b with avg :=
              (avgAt (rawBuckets reports startDayMs) ((i : ℤ) - 1) b.avg + b.avg +
                avgAt (rawBuckets reports startDayMs) ((i : ℤ) + 1) b.avg) / 3 }) := by
  unfold buildLineBuckets15minAll
  simp

/-- The accumulation pass for a single level-3 vote at the day start
touches only bucket 0. -/
theorem rawAccum_single_vote :
    rawAccum [⟨3, 0⟩] 0 =
      (List.replicate 96 ({ sum := 0, count := 0, avg := 0 } : Bucket)).modify
        (fun b => { b with sum := b.sum + 3, count := b.count + 1 }) 0 := by
  show bucketStep 0 (List.replicate LINE_POINTS { sum := 0, count := 0, avg := 0 }) ⟨3, 0⟩ =
    (List.replicate 96 ({ sum := 0, count := 0, avg := 0 } : Bucket)).modify
      (fun b => { b with sum := b.sum + 3, count := b.count + 1 }) 0
  unfold bucketStep
  norm_num [clamp, Int.zero_fdiv, lineBucketMs_eq]
  rfl

/-- Raw bucket 0 of the single-vote day: one vote, sum 3, average 3. -/
theorem rawBuckets_single_vote_zero :
    (rawBuckets [⟨3, 0⟩] 0)[0]? = some ⟨3, 1, 3⟩ := by
  rw [rawBuckets, rawAccum_single_vote]
  simp

/-- Raw bucket 1 of the single-vote day is empty. -/
theorem rawBuckets_single_vote_one :
    (rawBuckets [⟨3, 0⟩] 0)[1]? = some ⟨0, 0, 0⟩ := by
  rw [rawBuckets, rawAccum_single_vote]
  rw [List.getElem?_map, List.getElem?_modify_ne _ _ (by norm_num)]
  simp

/-- Claim C8: smoothing is a single second pass over the already-computed
raw per-bucket averages: every returned bucket equals its raw bucket with
only the average replaced by the 3-point mean of the raw left neighbour,
the raw own value, and the raw right neighbour, where a missing
neighbour of an edge bucket falls back to the bucket's own raw average;
in particular, with only bucket 0 populated by one level-3 vote, bucket
0's smoothed average is (3 + 3 + nextRawAvg) / 3. -/
theorem smoothing_second_pass :
    (∀ (reports : List Report) (startDayMs : ℤ) (i : ℕ),
        (buildLineBuckets15minAll reports startDayMs)[i]? =
          ((rawBuckets reports startDayMs)[i]?).map
            (fun b =>
              { b with avg :=
                  (avgAt (rawBuckets reports startDayMs) ((i : ℤ) - 1) b.avg + b.avg +
                    avgAt (rawBuckets reports startDayMs) ((i : ℤ) + 1) b.avg) / 3 })) ∧
    ((buildLineBuckets15minAll [⟨3, 0⟩] 0)[0]?).map Bucket.avg =
      some ((3 + 3 + avgAt (rawBuckets [⟨3, 0⟩] 0) 1 0) / 3) := by
  refine ⟨build_getElem?, ?_⟩
  rw [build_getElem?, rawBuckets_single_vote_zero]
  have hleft : avgAt (rawBuckets [⟨3, 0⟩] 0) (-1) 3 = 3 := by
    norm_num [avgAt]
  have hright : avgAt (rawBuckets [⟨3, 0⟩] 0) 1 3 = 0 := by
    norm_num [avgAt, rawBuckets_single_vote_one]
  have hnext : avgAt (rawBuckets [⟨3, 0⟩] 0) 1 0 = 0 := by
    norm_num [avgAt, rawBuckets_single_vote_one]
  simp [hnext, hleft, hright]

/-- Claim C10: the smoothing and raw-average passes change only the
`avg` field: for every index the returned bucket's `sum` and `count`
equal the accumulated (pre-smoothing) `sum` and `count`, so an empty
bucket is still recognisable by `count = 0` after smoothing. -/
theorem smoothing_only_changes_sum_count (reports : List Report) (startDayMs : ℤ) (i : ℕ) :
    ((buildLineBuckets15minAll reports startDayMs)[i]?).map Bucket.sum
        = ((rawAccum reports startDayMs)[i]?).map Bucket.sum ∧
    ((buildLineBuckets15minAll reports startDayMs)[i]?).map Bucket.count
        = ((rawAccum reports startDayMs)[i]?).map Bucket.count := by
  unfold buildLineBuckets15minAll rawBuckets
  cases h : (rawAccum reports startDayMs)[i]? <;> simp [h]

/-- A single vote contributes exactly its recency weight to the bucket
of its clamped level. -/
theorem voteBuckets_single (r : Report) (now : ℤ) :
    voteBuckets [r] now (lvlIdx r) = weight now r.createdAtMs := by
  unfold voteBuckets
  simp [Function.update_same]

/-- The recency weight depends on the timestamps only through their
difference. -/
theorem weight_shift (now t d : ℤ) : weight (now + d) (t + d) = weight now t := by
  unfold weight
  have h : now + d - (t + d) = now - t := by ring
  rw [h]

/-- The weight buckets are invariant under shifting all timestamps and
the clock by the same offset. -/
theorem voteBuckets_shift (reports : List Report) (now d : ℤ) :
    voteBuckets (reports.map fun r => ⟨r.waitLevel, r.createdAtMs + d⟩) (now + d) =
      voteBuckets reports now := by
  unfold voteBuckets
  rw [List.foldl_map]
  congr 1
  funext b r
  dsimp only
  rw [weight_shift]
  rfl

/-- Counterexample to claim C3 as stated: the source estimator reads the
global clock (`Date.now()`) instead of taking `now` as a parameter, so
its result is not a function of the vote list alone — the same
single-vote list evaluated at two different clock instants yields
different results (the level-3 weight bucket holds 1 at age 0 but
exp(-1) at age 12 minutes). -/
theorem estimator_reads_clock_counterexample :
    computeSmartLevel [⟨3, 0⟩] 0 ≠ computeSmartLevel [⟨3, 0⟩] 720000 := by
  intro h
  have hb := congrArg (fun s => s.buckets (lvlIdx ⟨3, 0⟩)) h
  have e1 : (computeSmartLevel [⟨3, 0⟩] 0).buckets = voteBuckets [⟨3, 0⟩] 0 := by
    simp [computeSmartLevel]
  have e2 : (computeSmartLevel [⟨3, 0⟩] 720000).buckets = voteBuckets [⟨3, 0⟩] 720000 := by
    simp [computeSmartLevel]
  simp only [e1, e2] at hb
  rw [voteBuckets_single, voteBuckets_single] at hb
  have w1 : weight 0 0 = 1 := by
    norm_num [weight, Real.exp_zero]
  have w2 : weight 720000 0 = Real.exp (-1) := by
    norm_num [weight]
  rw [w1, w2] at hb
  have hlt : Real.exp (-1) < 1 := Real.exp_lt_one_iff.mpr (by norm_num)
  linarith [hb, hlt]

/-- Claim C3 (amended): with the source's internal `Date.now()` reading
modelled as the explicit argument `now`, the estimator is a pure
deterministic function of the votes and that clock value, depending on
the timestamps only through the vote ages: shifting every timestamp and
the clock by the same offset leaves the entire result unchanged. -/
theorem estimator_deterministic_in_ages (reports : List Report) (now d : ℤ) :
    computeSmartLevel (reports.map fun r => ⟨r.waitLevel, r.createdAtMs + d⟩) (now + d) =
      computeSmartLevel reports now := by
  unfold computeSmartLevel
  rw [List.length_map, voteBuckets_shift]

/-- Counterexample to claim C6 as stated: two single level-3 votes with
future timestamps (one and two minutes ahead of the clock) have strictly
different ages, but both are clamped to age 0 and contribute exactly the
same weight to their bucket, so the strictly-smaller-age vote does not
contribute strictly more. -/
theorem recency_strict_counterexample :
    (0 : ℤ) - 120000 < (0 : ℤ) - 60000 ∧
      voteBuckets [⟨3, 60000⟩] 0 (lvlIdx ⟨3, 60000⟩) =
        voteBuckets [⟨3, 120000⟩] 0 (lvlIdx ⟨3, 120000⟩) ∧
      ¬ voteBuckets [⟨3, 60000⟩] 0 (lvlIdx ⟨3, 60000⟩) <
          voteBuckets [⟨3, 120000⟩] 0 (lvlIdx ⟨3, 120000⟩) := by
  have heq : voteBuckets [⟨3, 60000⟩] 0 (lvlIdx ⟨3, 60000⟩) =
      voteBuckets [⟨3, 120000⟩] 0 (lvlIdx ⟨3, 120000⟩) := by
    rw [voteBuckets_single, voteBuckets_single]
    unfold weight
    norm_num
  exact ⟨by norm_num, heq, by rw [heq]; exact lt_irrefl _⟩

/-- Claim C6 (amended): a vote contributes weight
`exp(-max(0, (now - timestampMs)/60000)/12)` to the bucket of its clamped
level; among two single-vote inputs differing only in `timestampMs`, the
vote with the strictly larger age contributes strictly less weight
provided that larger age is positive (future-dated votes are clamped to
age 0 and all weigh exactly 1); and the weight is never zero. -/
theorem recency_weight_monotone (lvl now t1 t2 : ℤ)
    (h1 : now - t2 < now - t1) (h2 : 0 < now - t1) :
    voteBuckets [⟨lvl, t1⟩] now (lvlIdx ⟨lvl, t1⟩) = weight now t1 ∧
    weight now t1 < weight now t2 ∧
    0 < weight now t1 := by
  refine ⟨voteBuckets_single ⟨lvl, t1⟩ now, ?_, Real.exp_pos _⟩
  unfold weight
  apply Real.exp_lt_exp.mpr
  have e1 : (0 : ℝ) < ((now - t1 : ℤ) : ℝ) := by exact_mod_cast h2
  have e2 : ((now - t2 : ℤ) : ℝ) < ((now - t1 : ℤ) : ℝ) := by exact_mod_cast h1
  have m1 : max 0 (((now - t1 : ℤ) : ℝ) / 60000) = ((now - t1 : ℤ) : ℝ) / 60000 :=
    max_eq_right (by linarith)
  have m2 : max 0 (((now - t2 : ℤ) : ℝ) / 60000) < ((now - t1 : ℤ) : ℝ) / 60000 :=
    max_lt (by linarith) (by linarith)
  rw [m1]
  linarith

/-- A vote one minute old weighs strictly less than one dated exactly at
the clock, by the recency monotonicity theorem. -/
theorem recency_weight_monotone_witness :
    voteBuckets [⟨3, 0⟩] 60000 (lvlIdx ⟨3, 0⟩) = weight 60000 0 ∧
    weight 60000 0 < weight 60000 60000 ∧
    0 < weight 60000 0 :=
  recency_weight_monotone 3 60000 0 60000 (by decide) (by decide)

/-- Claim C4: for a non-empty vote list, when the two top-weighted
levels are far apart (absolute difference at least 2) and close in
weight (the runner-up weighs at least 0.7 times the winner), the
estimator reports the rounded midpoint of the two levels clamped to
[0, 3]. -/
theorem bimodal_tie_break (reports : List Report) (now : ℤ)
    (hne : reports.length ≠ 0)
    (hfar : 2 ≤ |((top1Of (voteBuckets reports now) : ℕ) : ℤ) -
      ((top2Of (voteBuckets reports now) : ℕ) : ℤ)|)
    (hclose : voteBuckets reports now (top1Of (voteBuckets reports now)) * 0.7 ≤
      voteBuckets reports now (top2Of (voteBuckets reports now))) :
    (computeSmartLevel reports now).level =
      clamp (round ((((top1Of (voteBuckets reports now) : ℕ) : ℝ) +
        ((top2Of (voteBuckets reports now) : ℕ) : ℝ)) / 2)) 0 3 := by
  unfold computeSmartLevel
  rw [if_neg hne]
  show levelOf (voteBuckets reports now) = _
  unfold levelOf
  rw [if_pos ⟨hfar, hclose⟩]

/-- Five level-0 votes against five level-3 votes, all dated at the
clock, trigger the bimodal tie-break and yield the midpoint level 2 —
in {1, 2}, neither 0 nor 3. -/
theorem bimodal_tie_break_witness :
    (computeSmartLevel
        [⟨0, 0⟩, ⟨0, 0⟩, ⟨0, 0⟩, ⟨0, 0⟩, ⟨0, 0⟩,
         ⟨3, 0⟩, ⟨3, 0⟩, ⟨3, 0⟩, ⟨3, 0⟩, ⟨3, 0⟩] 0).level ∈ ({1, 2} : Set ℤ) := by
  set votes10 : List Report :=
    [⟨0, 0⟩, ⟨0, 0⟩, ⟨0, 0⟩, ⟨0, 0⟩, ⟨0, 0⟩,
     ⟨3, 0⟩, ⟨3, 0⟩, ⟨3, 0⟩, ⟨3, 0⟩, ⟨3, 0⟩] with hvotes
  have hw : weight 0 0 = 1 := by norm_num [weight, Real.exp_zero]
  have e0 : lvlIdx ⟨0, 0⟩ = 0 := rfl
  have e3 : lvlIdx ⟨3, 0⟩ = 3 := rfl
  have hb : voteBuckets votes10 0 =
      (fun i => if i = 0 then (5 : ℝ) else if i = 3 then 5 else 0) := by
    funext i
    rw [hvotes]
    unfold voteBuckets
    simp only [List.foldl_cons, List.foldl_nil, e0, e3, hw]
    fin_cases i <;> simp [Function.update_apply, e0, e3] <;> norm_num
  have hsort : sortedLevels (fun i => if i = 0 then (5 : ℝ) else if i = 3 then 5 else 0) =
      [0, 3, 1, 2] := by
    unfold sortedLevels
    simp [List.insertionSort, List.orderedInsert,
      (by norm_num : ¬(5 : ℝ) ≤ 0), (by norm_num : (0 : ℝ) ≤ 5),
      (by norm_num : (0 : ℝ) ≤ 0), (by norm_num : (5 : ℝ) ≤ 5)]
  have ht1 : top1Of (voteBuckets votes10 0) = 0 := by
    unfold top1Of
    rw [hb, hsort]
    rfl
  have ht2 : top2Of (voteBuckets votes10 0) = 3 := by
    unfold top2Of
    rw [hb, hsort]
    rfl
  have hfar : 2 ≤ |((top1Of (voteBuckets votes10 0) : ℕ) : ℤ) -
      ((top2Of (voteBuckets votes10 0) : ℕ) : ℤ)| := by
    rw [ht1, ht2]
    decide
  have hclose : voteBuckets votes10 0 (top1Of (voteBuckets votes10 0)) * 0.7 ≤
      voteBuckets votes10 0 (top2Of (voteBuckets votes10 0)) := by
    rw [ht1, ht2, hb]
    norm_num
  have happ := bimodal_tie_break votes10 0 (by rw [hvotes]; decide) hfar hclose
  rw [ht1, ht2] at happ
  have hval : clamp (round (((((0 : Fin 4) : ℕ) : ℝ) + (((3 : Fin 4) : ℕ) : ℝ)) / 2)) 0 3
      = 2 := by
    have hsum : ((((0 : Fin 4) : ℕ) : ℝ) + (((3 : Fin 4) : ℕ) : ℝ)) / 2 = 3 / 2 := by
      norm_num [show ((3 : Fin 4) : ℕ) = 3 from rfl, show ((0 : Fin 4) : ℕ) = 0 from rfl]
    rw [hsum, round_eq]
    have hfl : ⌊(3 / 2 + 1 / 2 : ℝ)⌋ = 2 := by norm_num
    rw [hfl]
    decide
  rw [happ, hval]
  simp

end KolonaKufiri
